import Mathlib

/-!
# Verification of `src/renderer.rs` (natsukashii forward renderer)

Shallow embedding of the renderer module.  GPU handles (buffers, bind
groups, textures, pipelines) are modelled symbolically: a handle is a
value recording exactly the data it was created from, so that two
handles are equal iff they were created from the same inputs.  Command
recording (`wgpu::CommandEncoder` / `wgpu::RenderPass`) is modelled as a
list of commands produced by `ForwardPass.execute`.

The repository modules `mesh.rs`, `scene.rs` and `uniform.rs` are not in
the sources; the types they export (`Scene`, `SceneObject`,
`MeshBuffers`, `ViewProjUniform`, `TransformUniform`,
`MaterialUniform`) are modelled from the spec where so marked.
Machine floating point scalars (`f32`) are modelled as rationals.
-/

namespace Natsukashii

/-- 4x4 matrices are treated symbolically: the renderer never inspects a
matrix, it only stores and forwards them.  `perspectiveLhDeg f a n z`
stands for `glam::Mat4::perspective_lh(f.to_radians(), a, n, z)` with
the field of view given in degrees; `ident` is `Mat4::default()`
(the identity); `ext n` is an arbitrary externally supplied matrix. -/
inductive Mat4 where
  | ident : Mat4
  | perspectiveLhDeg (fovyDeg aspect znear zfar : ℚ) : Mat4
  | ext (n : ℕ) : Mat4
deriving DecidableEq, Repr

/-- Modelled from the spec: a material color (`MaterialUniform` stores a
single flat `albedo` color).  `default` is the fixed default albedo. -/
inductive Color where
  | default : Color
  | custom (n : ℕ) : Color
deriving DecidableEq, Repr

/-- Modelled from the spec: the scene-side material entry is a tuple
struct whose field `0` is its color (the renderer reads
`m.unwrap_or_default().0`). -/
structure SceneMaterial where
  color : Color
deriving DecidableEq, Repr

instance : Inhabited SceneMaterial := ⟨⟨Color.default⟩⟩

/-- Modelled from the spec: a CPU-side mesh, an opaque bundle of vertex
data plus an index list; only the index count is ever observed by the
renderer. -/
structure Mesh where
  vertices : List ℕ
  indices : List ℕ
deriving DecidableEq, Repr

/-- Modelled from the spec: `SceneObject` =
`{ meshes, materials : sequence of optional color, transform }`. -/
structure SceneObject where
  meshes : List Mesh
  materials : List (Option SceneMaterial)
  transform : Mat4
deriving DecidableEq, Repr

/-- Modelled from the spec: `Scene` = `{ objects, view }`. -/
structure Scene where
  objects : List SceneObject
  view : Mat4
deriving DecidableEq, Repr

/-- Modelled from the spec: `ViewProjUniform { view, proj }`, the camera
uniform; `Default` gives identity matrices. -/
structure ViewProjUniform where
  view : Mat4 := Mat4.ident
  proj : Mat4 := Mat4.ident
deriving DecidableEq, Repr

/-- Modelled from the spec: `TransformUniform { model }`. -/
structure TransformUniform where
  model : Mat4
deriving DecidableEq, Repr

/-- Modelled from the spec: `MaterialUniform { albedo }`. -/
structure MaterialUniform where
  albedo : Color
deriving DecidableEq, Repr

/-- Symbolic GPU buffer handles.  A mesh's vertex/index buffers are
identified by the mesh they were uploaded from (each snapshot allocates
its own); `viewProjBuffer` is the camera uniform buffer allocated by
`ViewProjUniform::create_buffer`. -/
inductive BufferId where
  | viewProjBuffer (init : ViewProjUniform) : BufferId
  | vertexBuf (m : Mesh) : BufferId
  | indexBuf (m : Mesh) : BufferId
deriving DecidableEq, Repr

/-- Bind group layouts.  Each uniform kind's `layout(device)` is a
deterministic pure function of the uniform's shape (spec 4.1), so the
layout is identified by its kind. -/
inductive BindGroupLayout where
  | viewProj : BindGroupLayout
  | transform : BindGroupLayout
  | material : BindGroupLayout
deriving DecidableEq, Repr

/-- The value a bind group's buffer was initialised with. -/
inductive UniformValue where
  | viewProj (u : ViewProjUniform) : UniformValue
  | transform (u : TransformUniform) : UniformValue
  | material (u : MaterialUniform) : UniformValue
deriving DecidableEq, Repr

/-- Symbolic `wgpu::BindGroup`: records the layout it was created under
and the uniform value backing its buffer at binding index 0. -/
structure BindGroup where
  layout : BindGroupLayout
  value : UniformValue
deriving DecidableEq, Repr

instance : Inhabited BindGroup :=
  ⟨⟨BindGroupLayout.material, UniformValue.material ⟨Color.default⟩⟩⟩

/-- Modelled from the spec: `TransformUniform::create_bind_group` binds
a freshly created buffer holding the uniform value at binding 0 under
the given layout. -/
def TransformUniform.create_bind_group (u : TransformUniform)
    (layout : BindGroupLayout) : BindGroup :=
  ⟨layout, UniformValue.transform u⟩

/-- Modelled from the spec: `MaterialUniform::create_bind_group`, as for
transforms. -/
def MaterialUniform.create_bind_group (u : MaterialUniform)
    (layout : BindGroupLayout) : BindGroup :=
  ⟨layout, UniformValue.material u⟩

/-- `MeshBuffers { vbuf, ibuf, nelems }` from `mesh.rs`. -/
structure MeshBuffers where
  vbuf : BufferId
  ibuf : BufferId
  nelems : ℕ
deriving DecidableEq, Repr

/-- Modelled from the spec: `Mesh::create_buffers` uploads the vertex
and index data into fresh GPU buffers and records the index count. -/
def Mesh.create_buffers (m : Mesh) : MeshBuffers :=
  ⟨BufferId.vertexBuf m, BufferId.indexBuf m, m.indices.length⟩

/-- `RendererSceneObject` from `renderer.rs`. -/
structure RendererSceneObject where
  meshes : List MeshBuffers
  materials : List BindGroup
  transform : BindGroup
deriving DecidableEq, Repr

/-- `RendererScene` from `renderer.rs` (the scene snapshot). -/
structure RendererScene where
  objects : List RendererSceneObject := []
  view : Mat4 := Mat4.ident
deriving DecidableEq, Repr

/-- Texture formats appearing in the renderer: the fixed depth format
and the surface's color format (an arbitrary external format). -/
inductive TextureFormat where
  | depth32Float : TextureFormat
  | surfaceFmt (n : ℕ) : TextureFormat
deriving DecidableEq, Repr

/-- `wgpu::SurfaceConfiguration`, restricted to the fields the renderer
reads: `width`, `height`, `format`. -/
structure SurfaceConfiguration where
  width : ℕ
  height : ℕ
  format : TextureFormat
deriving DecidableEq, Repr

/-- `wgpu::TextureDimension` (only D2 is used). -/
inductive TextureDimension where
  | d1 | d2 | d3
deriving DecidableEq, Repr

/-- `wgpu::TextureDescriptor`, restricted to the fields the renderer
sets: size, mip levels, samples, dimension, format, render-attachment
usage. -/
structure TextureDescriptor where
  width : ℕ
  height : ℕ
  depthOrArrayLayers : ℕ
  mipLevelCount : ℕ
  sampleCount : ℕ
  dimension : TextureDimension
  format : TextureFormat
  usageRenderAttachment : Bool
deriving DecidableEq, Repr

/-- Symbolic `wgpu::TextureView`: either the default view over a texture
created by this module (carrying its descriptor), or the externally
supplied color target of a frame. -/
inductive TextureView where
  | ofTexture (desc : TextureDescriptor) : TextureView
  | externalColorTarget (n : ℕ) : TextureView
deriving DecidableEq, Repr

/-- `wgpu::CompareFunction` (only `Less` is used). -/
inductive CompareFunction where
  | less | other (n : ℕ)
deriving DecidableEq, Repr

/-- Depth/stencil state of the pipeline descriptor (stencil and bias are
left at their defaults by the source and carry no data here). -/
structure DepthStencilState where
  format : TextureFormat
  depthWriteEnabled : Bool
  depthCompare : CompareFunction
deriving DecidableEq, Repr

/-- Symbolic render pipeline: records the descriptor data the source
supplies.  The shader modules are the fixed embedded `forward.vert` /
`forward.frag` stages and carry no data; the vertex buffer layout is
the fixed `Vertex::buffer_layout()`. -/
structure RenderPipeline where
  bindGroupLayouts : List BindGroupLayout
  colorTargets : List TextureFormat
  depthStencil : Option DepthStencilState
deriving DecidableEq, Repr

/-- `ForwardPass` from `renderer.rs`. -/
structure ForwardPass where
  pipeline : RenderPipeline
  depth_texture_view : TextureView
deriving DecidableEq, Repr

/-- `ViewProj` from `renderer.rs` (the camera uniform bundle). -/
structure ViewProj where
  data : ViewProjUniform
  buffer : BufferId
  layout : BindGroupLayout
  bind_group : BindGroup
deriving DecidableEq, Repr

/-- `Renderer` from `renderer.rs`. -/
structure Renderer where
  view_proj : ViewProj
  forward_pass : ForwardPass
  transform_layout : BindGroupLayout
  material_layout : BindGroupLayout
deriving DecidableEq, Repr

/-- `ForwardPass::new`: allocates the depth target sized to the surface
configuration and builds the pipeline whose layout lists the binding-set
layouts in the order `[view_proj, transform, material]`. -/
def ForwardPass.new (surface_conf : SurfaceConfiguration)
    (view_proj_layout transform_layout material_layout : BindGroupLayout) :
    ForwardPass :=
  let depth_format := TextureFormat.depth32Float
  let depth_texture : TextureDescriptor :=
    { width := surface_conf.width
      height := surface_conf.height
      depthOrArrayLayers := 1
      mipLevelCount := 1
      sampleCount := 1
      dimension := TextureDimension.d2
      format := depth_format
      usageRenderAttachment := true }
  let depth_texture_view := TextureView.ofTexture depth_texture
  let pipeline : RenderPipeline :=
    { bindGroupLayouts := [view_proj_layout, transform_layout, material_layout]
      colorTargets := [surface_conf.format]
      depthStencil := some
        { format := depth_format
          depthWriteEnabled := true
          depthCompare := CompareFunction.less } }
  { pipeline := pipeline, depth_texture_view := depth_texture_view }

/-- `Renderer::new`: builds the camera uniform (projection from the
surface aspect ratio, view left at default), the shared layouts, and the
initial forward pass. -/
def Renderer.new (surface_conf : SurfaceConfiguration) : Renderer :=
  let view_proj_data : ViewProjUniform :=
    { proj := Mat4.perspectiveLhDeg 45
        ((surface_conf.width : ℚ) / (surface_conf.height : ℚ))
        (1/10) 100 }
  let view_proj_layout := BindGroupLayout.viewProj
  let view_proj_buffer := BufferId.viewProjBuffer view_proj_data
  let view_proj_bind_group : BindGroup :=
    ⟨view_proj_layout, UniformValue.viewProj view_proj_data⟩
  let transform_layout := BindGroupLayout.transform
  let material_layout := BindGroupLayout.material
  let forward_pass := ForwardPass.new surface_conf
    view_proj_layout transform_layout material_layout
  { view_proj :=
      { data := view_proj_data
        buffer := view_proj_buffer
        layout := view_proj_layout
        bind_group := view_proj_bind_group }
    forward_pass := forward_pass
    transform_layout := transform_layout
    material_layout := material_layout }

/-- `Renderer::resize`: recreates only the surface-dependent forward
pass, reusing the stored layouts. -/
def Renderer.resize (r : Renderer) (surface_conf : SurfaceConfiguration) :
    Renderer :=
  { r with forward_pass := (ForwardPass.new surface_conf
      r.view_proj.layout r.transform_layout r.material_layout) }

/-- `Renderer::create_scene`: snapshots a scene, building GPU mesh
buffers for every mesh, one material bind group per entry of the
object's `materials` list (defaulting absent entries), and one transform
bind group per object. -/
def Renderer.create_scene (r : Renderer) (scene : Scene) : RendererScene :=
  let objects := scene.objects.map (fun object =>
    let meshes := object.meshes.map (fun m => m.create_buffers)
    let materials := object.materials.map (fun m =>
      MaterialUniform.create_bind_group
        { albedo := (m.getD default).color } r.material_layout)
    let transform := TransformUniform.create_bind_group
      { model := object.transform } r.transform_layout
    RendererSceneObject.mk meshes materials transform)
  let view := scene.view
  { objects := objects, view := view }

/-- `wgpu::Color` (double precision in wgpu; modelled as rationals).
`wgpu::Color::BLACK` is `{ r: 0, g: 0, b: 0, a: 1 }`, opaque black. -/
structure WgpuColor where
  r : ℚ
  g : ℚ
  b : ℚ
  a : ℚ
deriving DecidableEq, Repr

/-- `wgpu::Color::BLACK`. -/
def WgpuColor.BLACK : WgpuColor := ⟨0, 0, 0, 1⟩

/-- `wgpu::LoadOp`. -/
inductive LoadOp (α : Type) where
  | clear (v : α) : LoadOp α
  | load : LoadOp α
deriving DecidableEq, Repr

/-- `wgpu::Operations`: load op plus whether the result is stored. -/
structure Operations (α : Type) where
  load : LoadOp α
  store : Bool
deriving DecidableEq, Repr

/-- `wgpu::RenderPassColorAttachment`. -/
structure RenderPassColorAttachment where
  view : TextureView
  resolveTarget : Option TextureView
  ops : Operations WgpuColor
deriving DecidableEq, Repr

/-- `wgpu::RenderPassDepthStencilAttachment`. -/
structure RenderPassDepthStencilAttachment where
  view : TextureView
  depthOps : Option (Operations ℚ)
  stencilOps : Option (Operations ℕ)
deriving DecidableEq, Repr

/-- `wgpu::RenderPassDescriptor`. -/
structure RenderPassDescriptor where
  colorAttachments : List RenderPassColorAttachment
  depthStencilAttachment : Option RenderPassDepthStencilAttachment
deriving DecidableEq, Repr

/-- Modelled from the spec: `Index::format()` from `mesh.rs` is a single
fixed, process-wide declared index format. -/
inductive IndexFormat where
  | fixedProcessWide : IndexFormat
deriving DecidableEq, Repr

/-- One recorded encoder / render-pass command.  `drawIndexed a b base c
d` records `draw_indexed(a..b, base, c..d)`. -/
inductive RenderCommand where
  | beginRenderPass (desc : RenderPassDescriptor) : RenderCommand
  | setPipeline (p : RenderPipeline) : RenderCommand
  | setBindGroup (slot : ℕ) (bg : BindGroup) : RenderCommand
  | setVertexBuffer (slot : ℕ) (buf : BufferId) : RenderCommand
  | setIndexBuffer (buf : BufferId) (fmt : IndexFormat) : RenderCommand
  | drawIndexed (idxStart idxEnd : ℕ) (baseVertex : ℤ)
      (instStart instEnd : ℕ) : RenderCommand
deriving DecidableEq, Repr

/-- The render-pass descriptor `ForwardPass::execute` opens: the color
target cleared to `BLACK`, the owned depth target cleared to `1.0`,
store enabled on both, no stencil ops. -/
def rpassDescriptor (fp : ForwardPass) (color_texture_view : TextureView) :
    RenderPassDescriptor :=
  { colorAttachments :=
      [{ view := color_texture_view
         resolveTarget := none
         ops := { load := LoadOp.clear WgpuColor.BLACK, store := true } }]
    depthStencilAttachment := some
      { view := fp.depth_texture_view
        depthOps := some { load := LoadOp.clear 1, store := true }
        stencilOps := none } }

/-- The inner loop of `ForwardPass::execute`:
`for (i, m) in o.meshes.iter().enumerate()` with running index `i`.
Returns `none` when the unguarded index `o.materials[i]` is out of
bounds (a Rust index panic). -/
def drawMeshes (materials : List BindGroup) :
    ℕ → List MeshBuffers → Option (List RenderCommand)
  | _, [] => some []
  | i, m :: rest =>
    match materials[i]? with
    | none => none
    | some mat =>
      (drawMeshes materials (i + 1) rest).map (fun cs =>
        RenderCommand.setBindGroup 2 mat ::
        RenderCommand.setVertexBuffer 0 m.vbuf ::
        RenderCommand.setIndexBuffer m.ibuf IndexFormat.fixedProcessWide ::
        RenderCommand.drawIndexed 0 m.nelems 0 0 1 :: cs)

/-- The per-object body of `ForwardPass::execute`: bind the object's
transform at slot 1, then the mesh loop. -/
def drawObject (o : RendererSceneObject) : Option (List RenderCommand) :=
  (drawMeshes o.materials 0 o.meshes).map
    (fun cs => RenderCommand.setBindGroup 1 o.transform :: cs)

/-- The outer loop of `ForwardPass::execute`: objects in snapshot
order. -/
def drawObjects : List RendererSceneObject → Option (List RenderCommand)
  | [] => some []
  | o :: rest =>
    (drawObject o).bind (fun c => (drawObjects rest).map (fun cs => c ++ cs))

/-- `ForwardPass::execute`: one render pass, pipeline and camera bind
group (slot 0) bound once, then the object/mesh loops.  `none` models
the index panic on a materials/meshes length mismatch. -/
def ForwardPass.execute (fp : ForwardPass) (color_texture_view : TextureView)
    (view_proj_bind_group : BindGroup) (scene : RendererScene) :
    Option (List RenderCommand) :=
  (drawObjects scene.objects).map (fun cs =>
    RenderCommand.beginRenderPass (rpassDescriptor fp color_texture_view) ::
    RenderCommand.setPipeline fp.pipeline ::
    RenderCommand.setBindGroup 0 view_proj_bind_group :: cs)

/-- `queue.write_buffer(buffer, offset, bytes_of(data))` with a camera
uniform payload. -/
structure QueueWrite where
  buffer : BufferId
  offset : ℕ
  data : ViewProjUniform
deriving DecidableEq, Repr

/-- `Renderer::render`.  The method takes `&self` (a shared borrow), so
the renderer struct itself cannot change; the returned `Renderer` is the
post-call state, making that explicit.  Alongside it: the single queue
write (camera uniform, view replaced from the snapshot, rest copied from
the stored data) and the forward-pass command trace. -/
def Renderer.render (r : Renderer) (color_view : TextureView)
    (scene : RendererScene) :
    Renderer × QueueWrite × Option (List RenderCommand) :=
  let vp := r.view_proj
  let write : QueueWrite :=
    ⟨vp.buffer, 0, { vp.data with view := scene.view }⟩
  (r, write, r.forward_pass.execute color_view vp.bind_group scene)

/-- The four commands recorded for a single submesh: material bind
group at slot 2, vertex and index buffers, an indexed draw of the
recorded element count with one instance. -/
def meshCommands (p : MeshBuffers × BindGroup) : List RenderCommand :=
  [RenderCommand.setBindGroup 2 p.2,
   RenderCommand.setVertexBuffer 0 p.1.vbuf,
   RenderCommand.setIndexBuffer p.1.ibuf IndexFormat.fixedProcessWide,
   RenderCommand.drawIndexed 0 p.1.nelems 0 0 1]

/-- The spec-level per-object trace: the transform bind group at slot
1, then the object's meshes in sequence order, mesh `i` paired with
material binding set `i`. -/
def objectTraceSpec (o : RendererSceneObject) : List RenderCommand :=
  RenderCommand.setBindGroup 1 o.transform ::
    (o.meshes.zip o.materials).flatMap meshCommands

/-- `true` exactly on `beginRenderPass` commands. -/
def isBeginPass : RenderCommand → Bool
  | RenderCommand.beginRenderPass _ => true
  | _ => false

/-- The shape of any command emitted by the object loop for an object
`o`: its transform at slot 1, one of its material bind groups at slot
2, or one of its meshes' buffer binds / draws. -/
def cmdFromObject (o : RendererSceneObject) (c : RenderCommand) : Prop :=
  c = RenderCommand.setBindGroup 1 o.transform ∨
  (∃ bg ∈ o.materials, c = RenderCommand.setBindGroup 2 bg) ∨
  ∃ m ∈ o.meshes,
    c = RenderCommand.setVertexBuffer 0 m.vbuf ∨
    c = RenderCommand.setIndexBuffer m.ibuf IndexFormat.fixedProcessWide ∨
    c = RenderCommand.drawIndexed 0 m.nelems 0 0 1

theorem drawMeshes_eq_of_le (mats : List BindGroup) (ms : List MeshBuffers)
    (i : ℕ) (h : i + ms.length ≤ mats.length) :
    drawMeshes mats i ms =
      some ((ms.zip (mats.drop i)).flatMap meshCommands) := by
  induction ms generalizing i with
  | nil => simp [drawMeshes]
  | cons m rest ih =>
    have hi : i < mats.length := by
      simp only [List.length_cons] at h
      omega
    have hrest : i + 1 + rest.length ≤ mats.length := by
      simp only [List.length_cons] at h
      omega
    simp only [drawMeshes, List.getElem?_eq_getElem hi, ih (i + 1) hrest,
      Option.map_some]
    rw [List.drop_eq_getElem_cons hi, List.zip_cons_cons]
    simp [meshCommands]

theorem drawObject_eq_of_le (o : RendererSceneObject)
    (h : o.meshes.length ≤ o.materials.length) :
    drawObject o = some (objectTraceSpec o) := by
  unfold drawObject objectTraceSpec
  rw [drawMeshes_eq_of_le o.materials o.meshes 0 (by omega)]
  simp

theorem drawObjects_eq_of_le (os : List RendererSceneObject)
    (h : ∀ o ∈ os, o.meshes.length ≤ o.materials.length) :
    drawObjects os = some (os.flatMap objectTraceSpec) := by
  induction os with
  | nil => simp [drawObjects]
  | cons o rest ih =>
    rw [drawObjects, drawObject_eq_of_le o (h o (by simp)),
      ih (fun o' ho' => h o' (by simp [ho']))]
    simp

theorem mem_of_drawMeshes (mats : List BindGroup) (ms : List MeshBuffers)
    (i : ℕ) (cs : List RenderCommand) (c : RenderCommand)
    (hsome : drawMeshes mats i ms = some cs) (hc : c ∈ cs) :
    (∃ bg ∈ mats, c = RenderCommand.setBindGroup 2 bg) ∨
    ∃ m ∈ ms,
      c = RenderCommand.setVertexBuffer 0 m.vbuf ∨
      c = RenderCommand.setIndexBuffer m.ibuf IndexFormat.fixedProcessWide ∨
      c = RenderCommand.drawIndexed 0 m.nelems 0 0 1 := by
  induction ms generalizing i cs with
  | nil =>
    simp only [drawMeshes, Option.some.injEq] at hsome
    subst hsome
    simp at hc
  | cons m rest ih =>
    rw [drawMeshes] at hsome
    cases hmat : mats[i]? with
    | none => simp [hmat] at hsome
    | some mat =>
      rw [hmat] at hsome
      cases hrec : drawMeshes mats (i + 1) rest with
      | none => simp [hrec] at hsome
      | some cs' =>
        rw [hrec] at hsome
        simp only [Option.map_some', Option.some.injEq] at hsome
        subst hsome
        simp only [List.mem_cons] at hc
        rcases hc with h1 | h2 | h3 | h4 | h5
        · exact Or.inl ⟨mat, List.getElem?_mem hmat, h1⟩
        · exact Or.inr ⟨m, by simp, Or.inl h2⟩
        · exact Or.inr ⟨m, by simp, Or.inr (Or.inl h3)⟩
        · exact Or.inr ⟨m, by simp, Or.inr (Or.inr h4)⟩
        · rcases ih (i + 1) cs' hrec h5 with hbg | ⟨m', hm', hcs⟩
          · exact Or.inl hbg
          · exact Or.inr ⟨m', by simp [hm'], hcs⟩

theorem mem_of_drawObject (o : RendererSceneObject)
    (cs : List RenderCommand) (c : RenderCommand)
    (hsome : drawObject o = some cs) (hc : c ∈ cs) : cmdFromObject o c := by
  unfold drawObject at hsome
  cases hrec : drawMeshes o.materials 0 o.meshes with
  | none => simp [hrec] at hsome
  | some cs' =>
    rw [hrec] at hsome
    simp only [Option.map_some', Option.some.injEq] at hsome
    subst hsome
    simp only [List.mem_cons] at hc
    rcases hc with h1 | h2
    · exact Or.inl h1
    · rcases mem_of_drawMeshes o.materials o.meshes 0 cs' c hrec h2 with
        hbg | hm
      · exact Or.inr (Or.inl hbg)
      · exact Or.inr (Or.inr hm)

theorem mem_of_drawObjects (os : List RendererSceneObject)
    (cs : List RenderCommand) (c : RenderCommand)
    (hsome : drawObjects os = some cs) (hc : c ∈ cs) :
    ∃ o ∈ os, cmdFromObject o c := by
  induction os generalizing cs with
  | nil =>
    simp only [drawObjects, Option.some.injEq] at hsome
    subst hsome
    simp at hc
  | cons o rest ih =>
    rw [drawObjects] at hsome
    cases h1 : drawObject o with
    | none => simp [h1] at hsome
    | some c1 =>
      rw [h1] at hsome
      cases h2 : drawObjects rest with
      | none => simp [h2] at hsome
      | some c2 =>
        rw [h2] at hsome
        simp only [Option.some_bind, Option.map_some', Option.some.injEq]
          at hsome
        subst hsome
        rcases List.mem_append.mp hc with hl | hr
        · exact ⟨o, by simp, mem_of_drawObject o c1 c h1 hl⟩
        · rcases ih c2 h2 hr with ⟨o', ho', hco'⟩
          exact ⟨o', by simp [ho'], hco'⟩

theorem execute_eq_some_iff (fp : ForwardPass) (cv : TextureView)
    (bg : BindGroup) (s : RendererScene) (cmds : List RenderCommand) :
    fp.execute cv bg s = some cmds ↔
      ∃ body, drawObjects s.objects = some body ∧
        cmds = RenderCommand.beginRenderPass (rpassDescriptor fp cv) ::
          RenderCommand.setPipeline fp.pipeline ::
          RenderCommand.setBindGroup 0 bg :: body := by
  unfold ForwardPass.execute
  cases h : drawObjects s.objects with
  | none => simp [h]
  | some body => simp [h, eq_comm]

theorem isBeginPass_false_of_cmdFromObject (o : RendererSceneObject)
    (c : RenderCommand) (h : cmdFromObject o c) : isBeginPass c = false := by
  rcases h with h1 | ⟨bg, _, h2⟩ | ⟨m, _, h3 | h3 | h3⟩ <;> subst_vars <;> rfl

/-! Concrete sample values, used by counterexamples and witnesses. -/

/-- An 800x600 surface configuration. -/
def sampleConf : SurfaceConfiguration := ⟨800, 600, TextureFormat.surfaceFmt 0⟩

/-- A renderer built on `sampleConf`. -/
def sampleRenderer : Renderer := Renderer.new sampleConf

/-- A forward pass built on `sampleConf` with the three uniform
layouts. -/
def sampleForwardPass : ForwardPass :=
  ForwardPass.new sampleConf BindGroupLayout.viewProj BindGroupLayout.transform
    BindGroupLayout.material

/-- An externally supplied frame color target. -/
def sampleColorTarget : TextureView := TextureView.externalColorTarget 0

/-- The camera bind group of `sampleRenderer`. -/
def sampleVpBindGroup : BindGroup := sampleRenderer.view_proj.bind_group

/-- A one-triangle mesh. -/
def sampleMesh : Mesh := ⟨[0, 1, 2], [0, 1, 2]⟩

/-- An identity-transform bind group. -/
def sampleTransformBG : BindGroup :=
  TransformUniform.create_bind_group ⟨Mat4.ident⟩ BindGroupLayout.transform

/-- A default-albedo material bind group. -/
def sampleMaterialBG : BindGroup :=
  MaterialUniform.create_bind_group ⟨Color.default⟩ BindGroupLayout.material

/-- A snapshot whose single object has one mesh but no material binding
set. -/
def mismatchedSnapshot : RendererScene :=
  ⟨[⟨[sampleMesh.create_buffers], [], sampleTransformBG⟩], Mat4.ident⟩

/-- A snapshot whose single object has one mesh and one material binding
set. -/
def matchedSnapshot : RendererScene :=
  ⟨[⟨[sampleMesh.create_buffers], [sampleMaterialBG], sampleTransformBG⟩],
   Mat4.ident⟩

/-- A scene whose single object has one mesh and an empty materials
sequence. -/
def mismatchedScene : Scene := ⟨[⟨[sampleMesh], [], Mat4.ident⟩], Mat4.ident⟩

/-- The empty snapshot. -/
def emptySnapshot : RendererScene := ⟨[], Mat4.ident⟩

/-! Claims. -/

/-- Claim C1, counterexample: `create_scene` builds one material binding
set per entry of the object's `materials` sequence, not per mesh — for a
scene object with one mesh and an empty materials sequence, the snapshot
object has zero material binding sets but one mesh, refuting the claim
that the two counts are always equal. -/
theorem create_scene_material_count_counterexample :
    ¬ ∀ ro ∈ (sampleRenderer.create_scene mismatchedScene).objects,
        ro.materials.length = ro.meshes.length := by decide

/-- Claim C1 (amended): for every scene object, the snapshot object at
the same position has one GPU mesh buffer per mesh and one material
binding set per entry of that object's `materials` sequence; hence the
material-binding-set count equals the mesh count exactly when the scene
object has as many materials entries as meshes. -/
theorem create_scene_object_counts (r : Renderer) (scene : Scene) :
    (r.create_scene scene).objects.map
        (fun ro => (ro.meshes.length, ro.materials.length)) =
      scene.objects.map (fun o => (o.meshes.length, o.materials.length)) := by
  simp [Renderer.create_scene]

/-- Claim C2: `render` issues a single write to the camera buffer at
offset 0 whose payload has `view = snapshot.view` and `proj` equal to
the stored projection, and leaves every field of the renderer (stored
uniform data, layouts, forward pass) unchanged (`render` takes
`&self`). -/
theorem render_updates_view_only (r : Renderer) (cv : TextureView)
    (s : RendererScene) :
    (r.render cv s).2.1.buffer = r.view_proj.buffer ∧
    (r.render cv s).2.1.offset = 0 ∧
    (r.render cv s).2.1.data.view = s.view ∧
    (r.render cv s).2.1.data.proj = r.view_proj.data.proj ∧
    (r.render cv s).1 = r :=
  ⟨rfl, rfl, rfl, rfl, rfl⟩

/-- Claim C3: `resize` replaces only the forward pass, rebuilding it
from the new surface configuration and the stored layouts; the camera
uniform bundle (data including the projection, buffer, bind group,
layout) and the transform and material layouts are untouched, so the
projection is not recomputed. -/
theorem resize_replaces_only_forward_pass (r : Renderer)
    (conf : SurfaceConfiguration) :
    (r.resize conf).forward_pass =
      ForwardPass.new conf r.view_proj.layout r.transform_layout
        r.material_layout ∧
    (r.resize conf).view_proj = r.view_proj ∧
    (r.resize conf).transform_layout = r.transform_layout ∧
    (r.resize conf).material_layout = r.material_layout :=
  ⟨rfl, rfl, rfl, rfl⟩

/-- Claim C4: the pipeline layout orders the binding-set slots as
`[camera, transform, material]` (in general and for the layouts a
renderer passes), and every successful `execute` trace starts with the
render pass, the pipeline, and the camera bind group at slot 0, after
which every bind-group command binds an object's transform at slot 1 or
one of an object's material binding sets at slot 2. -/
theorem pipeline_slot_protocol :
    (∀ (conf : SurfaceConfiguration) (l1 l2 l3 : BindGroupLayout),
      (ForwardPass.new conf l1 l2 l3).pipeline.bindGroupLayouts =
        [l1, l2, l3]) ∧
    (∀ conf : SurfaceConfiguration,
      (Renderer.new conf).forward_pass.pipeline.bindGroupLayouts =
        [BindGroupLayout.viewProj, BindGroupLayout.transform,
         BindGroupLayout.material]) ∧
    ∀ (fp : ForwardPass) (cv : TextureView) (vpbg : BindGroup)
      (s : RendererScene) (cmds : List RenderCommand),
      fp.execute cv vpbg s = some cmds →
      ∃ body,
        cmds =
          RenderCommand.beginRenderPass (rpassDescriptor fp cv) ::
          RenderCommand.setPipeline fp.pipeline ::
          RenderCommand.setBindGroup 0 vpbg :: body ∧
        ∀ (slot : ℕ) (bg : BindGroup),
          RenderCommand.setBindGroup slot bg ∈ body →
          (slot = 1 ∧ ∃ o ∈ s.objects, bg = o.transform) ∨
          (slot = 2 ∧ ∃ o ∈ s.objects, bg ∈ o.materials) := by
  refine ⟨fun conf l1 l2 l3 => rfl, fun conf => rfl, ?_⟩
  intro fp cv vpbg s cmds hsome
  rcases (execute_eq_some_iff fp cv vpbg s cmds).mp hsome with
    ⟨body, hbody, rfl⟩
  refine ⟨body, rfl, ?_⟩
  intro slot bg hmem
  rcases mem_of_drawObjects s.objects body _ hbody hmem with ⟨o, ho, hcmd⟩
  rcases hcmd with h1 | ⟨bg', hbg', h2⟩ | ⟨m, hm, h3 | h3 | h3⟩
  · simp only [RenderCommand.setBindGroup.injEq] at h1
    exact Or.inl ⟨h1.1, o, ho, h1.2⟩
  · simp only [RenderCommand.setBindGroup.injEq] at h2
    exact Or.inr ⟨h2.1, o, ho, h2.2 ▸ hbg'⟩
  · simp at h3
  · simp at h3
  · simp at h3

/-- Witness for C4, at the empty snapshot. -/
theorem pipeline_slot_protocol_witness :
    ∃ body,
      [RenderCommand.beginRenderPass
          (rpassDescriptor sampleForwardPass sampleColorTarget),
        RenderCommand.setPipeline sampleForwardPass.pipeline,
        RenderCommand.setBindGroup 0 sampleVpBindGroup] =
        RenderCommand.beginRenderPass
          (rpassDescriptor sampleForwardPass sampleColorTarget) ::
        RenderCommand.setPipeline sampleForwardPass.pipeline ::
        RenderCommand.setBindGroup 0 sampleVpBindGroup :: body ∧
      ∀ (slot : ℕ) (bg : BindGroup),
        RenderCommand.setBindGroup slot bg ∈ body →
        (slot = 1 ∧ ∃ o ∈ emptySnapshot.objects, bg = o.transform) ∨
        (slot = 2 ∧ ∃ o ∈ emptySnapshot.objects, bg ∈ o.materials) :=
  pipeline_slot_protocol.2.2 sampleForwardPass sampleColorTarget
    sampleVpBindGroup emptySnapshot _ rfl

/-- Claim C5: the material binding set built by `create_scene` for
materials entry `i` of object `j` is created from the default albedo
when the entry is absent, and from the material's color when it is
present. -/
theorem create_scene_material_albedo (r : Renderer) (scene : Scene)
    (j i : ℕ) (o : SceneObject) (mopt : Option SceneMaterial)
    (hj : scene.objects[j]? = some o) (hi : o.materials[i]? = some mopt) :
    ∃ ro, (r.create_scene scene).objects[j]? = some ro ∧
      ro.materials[i]? = some (MaterialUniform.create_bind_group
        { albedo := match mopt with
            | none => Color.default
            | some m => m.color }
        r.material_layout) := by
  have h1 : (r.create_scene scene).objects[j]? = some
      (RendererSceneObject.mk (o.meshes.map Mesh.create_buffers)
        (o.materials.map fun m => MaterialUniform.create_bind_group
          ⟨(m.getD default).color⟩ r.material_layout)
        (TransformUniform.create_bind_group ⟨o.transform⟩
          r.transform_layout)) := by
    simp [Renderer.create_scene, List.getElem?_map, hj]
  refine ⟨_, h1, ?_⟩
  simp only [List.getElem?_map, hi, Option.map_some', Option.some.injEq]
  cases mopt with
  | none => rfl
  | some m => rfl

/-- Witness for C5, at an absent materials entry. -/
theorem create_scene_material_albedo_witness :
    ∃ ro, (sampleRenderer.create_scene
        ⟨[⟨[], [none, some ⟨Color.custom 7⟩], Mat4.ident⟩],
         Mat4.ident⟩).objects[0]? = some ro ∧
      ro.materials[0]? = some (MaterialUniform.create_bind_group
        { albedo := Color.default } sampleRenderer.material_layout) :=
  create_scene_material_albedo sampleRenderer
    ⟨[⟨[], [none, some ⟨Color.custom 7⟩], Mat4.ident⟩], Mat4.ident⟩ 0 0
    ⟨[], [none, some ⟨Color.custom 7⟩], Mat4.ident⟩ none rfl rfl

/-- Claim C6: for a surface configuration with nonzero height,
`Renderer.new` stores as projection the left-handed perspective matrix
with 45 degrees vertical field of view, aspect width/height, near 0.1,
far 100. -/
theorem new_projection (conf : SurfaceConfiguration)
    (h : conf.height ≠ 0) :
    (Renderer.new conf).view_proj.data.proj =
      Mat4.perspectiveLhDeg 45 ((conf.width : ℚ) / (conf.height : ℚ))
        (1/10) 100 := rfl

/-- Witness for C6, at 800x600. -/
theorem new_projection_witness :
    sampleConf.height ≠ 0 ∧
    (Renderer.new sampleConf).view_proj.data.proj =
      Mat4.perspectiveLhDeg 45
        ((sampleConf.width : ℚ) / (sampleConf.height : ℚ)) (1/10) 100 :=
  ⟨by decide, new_projection sampleConf (by decide)⟩

/-- Claim C7: the forward pass's depth target is a single-mip,
single-sample, 32-bit-float-depth 2D texture sized exactly to the
surface configuration, and after `resize` the depth target in use
matches the new configuration's dimensions. -/
theorem forward_pass_depth_target (conf : SurfaceConfiguration)
    (l1 l2 l3 : BindGroupLayout) :
    (ForwardPass.new conf l1 l2 l3).depth_texture_view =
      TextureView.ofTexture
        { width := conf.width
          height := conf.height
          depthOrArrayLayers := 1
          mipLevelCount := 1
          sampleCount := 1
          dimension := TextureDimension.d2
          format := TextureFormat.depth32Float
          usageRenderAttachment := true } ∧
    ∀ (r : Renderer) (conf2 : SurfaceConfiguration),
      (r.resize conf2).forward_pass.depth_texture_view =
        TextureView.ofTexture
          { width := conf2.width
            height := conf2.height
            depthOrArrayLayers := 1
            mipLevelCount := 1
            sampleCount := 1
            dimension := TextureDimension.d2
            format := TextureFormat.depth32Float
            usageRenderAttachment := true } :=
  ⟨rfl, fun r conf2 => rfl⟩

/-- Claim C8: every successful `execute` trace records exactly one
render pass, and that pass clears the color attachment to opaque black
and the depth attachment to 1.0, with store enabled on both and no
stencil ops. -/
theorem execute_single_clear_pass (fp : ForwardPass) (cv : TextureView)
    (vpbg : BindGroup) (s : RendererScene) (cmds : List RenderCommand)
    (h : fp.execute cv vpbg s = some cmds) :
    (∃ rest, cmds =
      RenderCommand.beginRenderPass
        { colorAttachments :=
            [{ view := cv
               resolveTarget := none
               ops := { load := LoadOp.clear ⟨0, 0, 0, 1⟩, store := true } }]
          depthStencilAttachment := some
            { view := fp.depth_texture_view
              depthOps := some { load := LoadOp.clear 1, store := true }
              stencilOps := none } } :: rest) ∧
    cmds.countP isBeginPass = 1 := by
  rcases (execute_eq_some_iff fp cv vpbg s cmds).mp h with ⟨body, hbody, rfl⟩
  refine ⟨⟨_, rfl⟩, ?_⟩
  have hzero : body.countP isBeginPass = 0 :=
    List.countP_eq_zero.mpr (fun c hc => by
      rcases mem_of_drawObjects s.objects body c hbody hc with ⟨o, _, hcmd⟩
      simp [isBeginPass_false_of_cmdFromObject o c hcmd])
  simp [List.countP_cons, hzero, isBeginPass]

/-- Witness for C8, at the empty snapshot. -/
theorem execute_single_clear_pass_witness :
    (∃ rest,
      [RenderCommand.beginRenderPass
          (rpassDescriptor sampleForwardPass sampleColorTarget),
        RenderCommand.setPipeline sampleForwardPass.pipeline,
        RenderCommand.setBindGroup 0 sampleVpBindGroup] =
      RenderCommand.beginRenderPass
        { colorAttachments :=
            [{ view := sampleColorTarget
               resolveTarget := none
               ops := { load := LoadOp.clear ⟨0, 0, 0, 1⟩, store := true } }]
          depthStencilAttachment := some
            { view := sampleForwardPass.depth_texture_view
              depthOps := some { load := LoadOp.clear 1, store := true }
              stencilOps := none } } :: rest) ∧
    List.countP isBeginPass
      [RenderCommand.beginRenderPass
          (rpassDescriptor sampleForwardPass sampleColorTarget),
        RenderCommand.setPipeline sampleForwardPass.pipeline,
        RenderCommand.setBindGroup 0 sampleVpBindGroup] = 1 :=
  execute_single_clear_pass sampleForwardPass sampleColorTarget
    sampleVpBindGroup emptySnapshot _ rfl

/-- Claim C9: when every object has at least as many material binding
sets as meshes, the `execute` trace is exactly: the render pass, the
pipeline, the camera bind group, then the objects in snapshot order,
each contributing its transform bind group followed by its meshes in
order, mesh `i` paired with material binding set `i`, each mesh drawn by
exactly one indexed draw of its recorded index count with one instance —
an explicit deterministic function of the snapshot. -/
theorem execute_trace_deterministic (fp : ForwardPass) (cv : TextureView)
    (vpbg : BindGroup) (s : RendererScene)
    (h : ∀ o ∈ s.objects, o.meshes.length ≤ o.materials.length) :
    fp.execute cv vpbg s = some (
      RenderCommand.beginRenderPass (rpassDescriptor fp cv) ::
      RenderCommand.setPipeline fp.pipeline ::
      RenderCommand.setBindGroup 0 vpbg ::
      s.objects.flatMap objectTraceSpec) := by
  unfold ForwardPass.execute
  rw [drawObjects_eq_of_le s.objects h]
  rfl

/-- Witness for C9, at a one-object, one-mesh snapshot. -/
theorem execute_trace_deterministic_witness :
    sampleForwardPass.execute sampleColorTarget sampleVpBindGroup
        matchedSnapshot = some (
      RenderCommand.beginRenderPass
        (rpassDescriptor sampleForwardPass sampleColorTarget) ::
      RenderCommand.setPipeline sampleForwardPass.pipeline ::
      RenderCommand.setBindGroup 0 sampleVpBindGroup ::
      matchedSnapshot.objects.flatMap objectTraceSpec) :=
  execute_trace_deterministic sampleForwardPass sampleColorTarget
    sampleVpBindGroup matchedSnapshot (by decide)

/-- Claim C10: the materials indexing in the mesh loop is unguarded:
under the precondition that every object has at least as many material
binding sets as meshes, `execute` succeeds (all indexing in bounds);
without it the out-of-bounds branch is reachable — on a snapshot whose
object has one mesh and no materials, `execute` hits it (modelled as
`none`). -/
theorem execute_materials_indexing :
    (∀ (fp : ForwardPass) (cv : TextureView) (vpbg : BindGroup)
        (s : RendererScene),
      (∀ o ∈ s.objects, o.meshes.length ≤ o.materials.length) →
      (fp.execute cv vpbg s).isSome = true) ∧
    sampleForwardPass.execute sampleColorTarget sampleVpBindGroup
      mismatchedSnapshot = none := by
  refine ⟨?_, rfl⟩
  intro fp cv vpbg s h
  unfold ForwardPass.execute
  rw [drawObjects_eq_of_le s.objects h]
  rfl

/-- Witness for C10, discharging the precondition at a matched
snapshot. -/
theorem execute_materials_indexing_witness :
    (sampleForwardPass.execute sampleColorTarget sampleVpBindGroup
      matchedSnapshot).isSome = true :=
  execute_materials_indexing.1 sampleForwardPass sampleColorTarget
    sampleVpBindGroup matchedSnapshot (by decide)

end Natsukashii
